import Mathlib

/-!
# Verification of `ai-job-agent` core logic

A shallow embedding, in Lean 4, of the core decision logic of the
`ai-job-agent` repository, together with theorems checking the
natural-language specification against it.

Modules embedded here:

* `application_dispatcher.py` — `ApplicationDispatcher.dispatch`
* `job_scraper.py` / `job_sources.py` — `deduplicate_jobs`
* `scraper_service.py` — `is_cookie_file_stale`, `JobScraper.load_cookies`
* `job_application.py` — `JobApplication.apply_to_job`
* `helpers.py` — `parse_salary_text`, `hash_job`
* `email_scanner.py` — `EmailScanner.parse_job_email` and the four
  pattern matchers, driven by a small backtracking regex engine that
  mirrors Python `re` semantics for the patterns used in the source.

Conventions of the embedding:

* Python dictionaries holding job records become Lean structures; a key
  that is absent is modelled by the empty string (the code only ever
  tests these fields for truthiness or reads them with a `''` default),
  except where a `KeyError` is observable, in which case the field is an
  `Option`.
* Fallible effects (network, browser, sheets API) are modelled by
  explicit oracle arguments of type `Except PyErr α`: the value the
  effect returns, or the exception it raises.
* Machine integers do not occur; Python integers are arbitrary
  precision and become `Nat`/`Int`.  The two float multiplications in
  `parse_salary_text` (`* 2.7`, `* 3.67`) are modelled by exact
  rational arithmetic followed by truncation (`* 27 / 10`,
  `* 367 / 100`), the mathematical reading of the source.
-/

/-- Python exceptions, abstracted to their message. -/
abbrev PyErr := String

/-! ## `application_dispatcher.py` — `ApplicationDispatcher.dispatch`

```python
async def dispatch(self, job):
    try:
        if self.config.get('review_before_apply', False):
            self.sheets_logger.append_review_row(job)
            return 'review_queue'
        if job.get('recruiter_email'):
            try:
                send_cold_email(...)
                self.sheets_logger.mark_cold_email_sent(...)
            except Exception as e:
                self.sheets_logger.update_notes(..., f"Cold email failed: {e}")
            return 'cold_email'
        elif job.get('apply_url'):
            if not self.config.get('auto_apply_enabled', True):
                self.sheets_logger.update_notes(..., "Manual review required (auto-apply off)")
                return 'manual_review'
            try:
                async with JobApplication(...) as app:
                    result = await app.apply_to_job(job, self.user_profile)
                if result:
                    self.sheets_logger.mark_applied(...)
                else:
                    self.sheets_logger.update_notes(..., "Web form automation failed")
            except Exception as e:
                self.sheets_logger.update_notes(..., f"Web form automation failed: {e}")
            return 'web_form'
        else:
            self.sheets_logger.update_notes(..., "Manual review required")
            return 'manual_review'
    except Exception as e:
        return 'error'
```

All `SheetsLogger` methods called here catch their own exceptions
internally (`append_review_row` and `_update_cell_by_url` each wrap
their body in `try/except`), so they are modelled as total; the outer
`except` that returns `'error'` is consequently unreachable in the
model.  `send_cold_email` and the automation engine are fallible and
appear as oracle arguments.
-/

namespace Dispatcher

/-- The fields of a job dictionary read by `dispatch`.  An absent key is
modelled by `""` (the code reads them only through truthiness tests or
`.get` with `''`-like defaults). -/
structure Job where
  title : String := ""
  company : String := ""
  recruiter_email : String := ""
  apply_url : String := ""
  job_url : String := ""
deriving DecidableEq, Repr

/-- The two configuration keys read by `dispatch`; `none` models a key
absent from the config dictionary. -/
structure Config where
  review_before_apply : Option Bool := none
  auto_apply_enabled : Option Bool := none
deriving DecidableEq, Repr

/-- Side effects on the tracking sheet performed by `dispatch`. -/
inductive SheetsEffect where
  | appendReviewRow (title company : String)
  | markColdEmailSent (url : String)
  | markApplied (url : String)
  | noteUpdated (url note : String)
deriving DecidableEq, Repr

/-- `job.get('job_url', job.get('apply_url', ''))`, the key used for
sheet updates. -/
def urlKey (job : Job) : String :=
  if job.job_url ≠ "" then job.job_url else job.apply_url

/-- `ApplicationDispatcher.dispatch`.  `emailSend` is the outcome of
`send_cold_email` (which either returns or raises), `autoApply` the
outcome of `JobApplication.apply_to_job` (a boolean, or a raised
exception).  Returns the outcome string together with the sheet
effects performed. -/
def dispatch (cfg : Config) (job : Job) (emailSend : Except PyErr Unit)
    (autoApply : Except PyErr Bool) : String × List SheetsEffect :=
  if cfg.review_before_apply.getD false then
    ("review_queue", [.appendReviewRow job.title job.company])
  else if job.recruiter_email ≠ "" then
    match emailSend with
    | .ok _ => ("cold_email", [.markColdEmailSent (urlKey job)])
    | .error e => ("cold_email", [.noteUpdated (urlKey job) ("Cold email failed: " ++ e)])
  else if job.apply_url ≠ "" then
    if !(cfg.auto_apply_enabled.getD true) then
      ("manual_review", [.noteUpdated (urlKey job) "Manual review required (auto-apply off)"])
    else
      match autoApply with
      | .ok true => ("web_form", [.markApplied (urlKey job)])
      | .ok false => ("web_form", [.noteUpdated (urlKey job) "Web form automation failed"])
      | .error e => ("web_form", [.noteUpdated (urlKey job) ("Web form automation failed: " ++ e)])
  else
    ("manual_review", [.noteUpdated (urlKey job) "Manual review required"])

/-- The §4.6 decision table of the specification, written from the
spec's own words: first match wins over the four predicates
{reviewBeforeApply, recruiterEmail present, applyUrl present,
autoApplyEnabled}. -/
def specOutcome (reviewBeforeApply recruiterEmailPresent applyUrlPresent autoApplyEnabled : Bool) :
    String :=
  if reviewBeforeApply then "review_queue"
  else if recruiterEmailPresent then "cold_email"
  else if applyUrlPresent then
    if autoApplyEnabled = false then "manual_review" else "web_form"
  else "manual_review"

end Dispatcher

/-- **C1.** For every job dictionary and config, `dispatch` returns exactly
the outcome predicted by the spec's §4.6 decision table, evaluated in
order with first match wins, regardless of whether the cold-email send
succeeds and regardless of the automation engine's boolean result (or
its raising).  The universal quantification over the two booleans of
the config, the two string fields of the job and both oracles covers
all 8 combinations of {reviewBeforeApply, recruiterEmail present,
applyUrl present, autoApplyEnabled}. -/
theorem dispatch_matches_spec_table (cfg : Dispatcher.Config) (job : Dispatcher.Job)
    (emailSend : Except PyErr Unit) (autoApply : Except PyErr Bool) :
    (Dispatcher.dispatch cfg job emailSend autoApply).1 =
      Dispatcher.specOutcome (cfg.review_before_apply.getD false)
        (job.recruiter_email != "") (job.apply_url != "")
        (cfg.auto_apply_enabled.getD true) := by
  unfold Dispatcher.dispatch Dispatcher.specOutcome
  by_cases h1 : cfg.review_before_apply.getD false <;>
    by_cases h2 : job.recruiter_email = "" <;>
      by_cases h3 : job.apply_url = "" <;>
        by_cases h4 : cfg.auto_apply_enabled.getD true <;>
          simp [h1, h2, h3, h4, beq_iff_eq] <;>
            first
              | rfl
              | (cases emailSend <;> rfl)
              | (rcases autoApply with _ | _ <;> first | rfl | (rename_i b; cases b <;> rfl))

/-- **C8.** A config with neither `review_before_apply` nor
`auto_apply_enabled` behaves exactly like one with
`review_before_apply = false` and `auto_apply_enabled = true`; in
particular a job with a non-empty `apply_url` and no `recruiter_email`
dispatches to `web_form` under the empty config. -/
theorem dispatch_default_config :
    (∀ (job : Dispatcher.Job) (e : Except PyErr Unit) (a : Except PyErr Bool),
      Dispatcher.dispatch ⟨none, none⟩ job e a =
        Dispatcher.dispatch ⟨some false, some true⟩ job e a) ∧
    (∀ (job : Dispatcher.Job) (e : Except PyErr Unit) (a : Except PyErr Bool),
      job.apply_url ≠ "" → job.recruiter_email = "" →
      (Dispatcher.dispatch ⟨none, none⟩ job e a).1 = "web_form") := by
  constructor
  · intro job e a
    rfl
  · intro job e a happ hrec
    unfold Dispatcher.dispatch
    simp [hrec, happ]
    rcases a with _ | b
    · rfl
    · cases b <;> rfl

/-- Witness for **C8**: a concrete job with an `apply_url` and no
recruiter email goes to `web_form` under the empty config. -/
theorem dispatch_default_config_witness :
    (Dispatcher.dispatch ⟨none, none⟩
      { title := "Engineer", apply_url := "https://x.example/apply" }
      (.ok ()) (.ok true)).1 = "web_form" :=
  dispatch_default_config.2
    { title := "Engineer", apply_url := "https://x.example/apply" }
    (.ok ()) (.ok true) (by decide) rfl

/-! ## `job_scraper.py` / `job_sources.py` — `deduplicate_jobs`

```python
# job_scraper.py  (class JobScraper)
def deduplicate_jobs(self, jobs):
    """Remove duplicate jobs based on URL or job hash."""
    unique_jobs = []
    seen_urls = set()
    for job in jobs:
        job_url = job.get('job_url', '')
        if job_url not in seen_urls:
            unique_jobs.append(job)
            seen_urls.add(job_url)
    return unique_jobs

# job_sources.py  (class BaseJobSource)
def deduplicate_jobs(self, jobs):
    """Remove duplicate jobs based on URL."""
    unique_jobs = []
    seen_urls = set()
    for job in jobs:
        job_url = job.get('job_url', '')
        if job_url and job_url not in seen_urls:
            unique_jobs.append(job)
            seen_urls.add(job_url)
    return unique_jobs
```
-/

/-- A scraped job record, restricted to the fields the deduplicators
read or that the spec's identity rule mentions. -/
structure SJob where
  title : String := ""
  company : String := ""
  location : String := ""
  job_url : String := ""
deriving DecidableEq, Repr

namespace JobScraperPy

/-- Loop of `JobScraper.deduplicate_jobs` (`job_scraper.py`):
`seen` is the `seen_urls` set accumulated so far. -/
def deduplicate_jobs_go (seen : List String) : List SJob → List SJob
  | [] => []
  | j :: rest =>
    if j.job_url ∈ seen then deduplicate_jobs_go seen rest
    else j :: deduplicate_jobs_go (j.job_url :: seen) rest

/-- `JobScraper.deduplicate_jobs` from `job_scraper.py`: keeps the first
occurrence per raw `job_url` value (the empty string included). -/
def deduplicate_jobs (jobs : List SJob) : List SJob :=
  deduplicate_jobs_go [] jobs

end JobScraperPy

namespace JobSources

/-- Loop of `BaseJobSource.deduplicate_jobs` (`job_sources.py`). -/
def deduplicate_jobs_go (seen : List String) : List SJob → List SJob
  | [] => []
  | j :: rest =>
    if j.job_url ≠ "" ∧ j.job_url ∉ seen then
      j :: deduplicate_jobs_go (j.job_url :: seen) rest
    else deduplicate_jobs_go seen rest

/-- `BaseJobSource.deduplicate_jobs` from `job_sources.py`: keeps the
first occurrence per non-empty `job_url` and drops every record whose
`job_url` is empty. -/
def deduplicate_jobs (jobs : List SJob) : List SJob :=
  deduplicate_jobs_go [] jobs

end JobSources

namespace JobScraperPy

theorem dedup_go_invariant (jobs : List SJob) : ∀ seen : List String,
    ((deduplicate_jobs_go seen jobs).map SJob.job_url).Nodup ∧
    ∀ j ∈ deduplicate_jobs_go seen jobs, j.job_url ∉ seen := by
  induction jobs with
  | nil => intro seen; simp [deduplicate_jobs_go]
  | cons j rest ih =>
    intro seen
    by_cases h : j.job_url ∈ seen
    · simpa [deduplicate_jobs_go, h] using ih seen
    · have hrest := ih (j.job_url :: seen)
      refine ⟨?_, ?_⟩
      · simp only [deduplicate_jobs_go, if_neg h, List.map_cons, List.nodup_cons]
        refine ⟨?_, hrest.1⟩
        intro hmem
        rcases List.mem_map.1 hmem with ⟨k, hk, hurl⟩
        exact (hrest.2 k hk) (by simp [hurl])
      · intro k hk
        simp only [deduplicate_jobs_go, if_neg h, List.mem_cons] at hk
        rcases hk with rfl | hk
        · exact h
        · have := hrest.2 k hk
          intro hseen
          exact this (List.mem_cons_of_mem _ hseen)

theorem dedup_go_fixed (jobs : List SJob) : ∀ seen : List String,
    ((jobs.map SJob.job_url).Nodup) → (∀ j ∈ jobs, j.job_url ∉ seen) →
    deduplicate_jobs_go seen jobs = jobs := by
  induction jobs with
  | nil => intro seen _ _; rfl
  | cons j rest ih =>
    intro seen hnd hout
    have hj : j.job_url ∉ seen := hout j (by simp)
    simp only [List.map_cons, List.nodup_cons] at hnd
    rw [deduplicate_jobs_go, if_neg hj, ih (j.job_url :: seen) hnd.2]
    intro k hk
    simp only [List.mem_cons, not_or]
    refine ⟨?_, hout k (List.mem_cons_of_mem _ hk)⟩
    intro hurl
    exact hnd.1 (hurl ▸ List.mem_map_of_mem SJob.job_url hk)

end JobScraperPy

namespace JobSources

theorem src_dedup_go_invariant (jobs : List SJob) : ∀ seen : List String,
    ((deduplicate_jobs_go seen jobs).map SJob.job_url).Nodup ∧
    ∀ j ∈ deduplicate_jobs_go seen jobs, j.job_url ≠ "" ∧ j.job_url ∉ seen := by
  induction jobs with
  | nil => intro seen; simp [deduplicate_jobs_go]
  | cons j rest ih =>
    intro seen
    by_cases h : j.job_url ≠ "" ∧ j.job_url ∉ seen
    · have hrest := ih (j.job_url :: seen)
      refine ⟨?_, ?_⟩
      · simp only [deduplicate_jobs_go, if_pos h, List.map_cons, List.nodup_cons]
        refine ⟨?_, hrest.1⟩
        intro hmem
        rcases List.mem_map.1 hmem with ⟨k, hk, hurl⟩
        exact (hrest.2 k hk).2 (by simp [hurl])
      · intro k hk
        simp only [deduplicate_jobs_go, if_pos h, List.mem_cons] at hk
        rcases hk with rfl | hk
        · exact h
        · have := hrest.2 k hk
          exact ⟨this.1, fun hseen => this.2 (List.mem_cons_of_mem _ hseen)⟩
    · simpa [deduplicate_jobs_go, if_neg h] using ih seen

theorem src_dedup_go_fixed (jobs : List SJob) : ∀ seen : List String,
    ((jobs.map SJob.job_url).Nodup) → (∀ j ∈ jobs, j.job_url ≠ "" ∧ j.job_url ∉ seen) →
    deduplicate_jobs_go seen jobs = jobs := by
  induction jobs with
  | nil => intro seen _ _; rfl
  | cons j rest ih =>
    intro seen hnd hout
    have hj := hout j (by simp)
    simp only [List.map_cons, List.nodup_cons] at hnd
    rw [deduplicate_jobs_go, if_pos hj, ih (j.job_url :: seen) hnd.2]
    intro k hk
    have hk' := hout k (List.mem_cons_of_mem _ hk)
    refine ⟨hk'.1, ?_⟩
    simp only [List.mem_cons, not_or]
    refine ⟨?_, hk'.2⟩
    intro hurl
    exact hnd.1 (hurl ▸ List.mem_map_of_mem SJob.job_url hk)

end JobSources

/-- **C3.** Both deduplicators are idempotent: running either
`deduplicate_jobs` on its own output is a no-op, for every input list. -/
theorem deduplicate_jobs_idempotent :
    (∀ X : List SJob,
      JobScraperPy.deduplicate_jobs (JobScraperPy.deduplicate_jobs X) =
        JobScraperPy.deduplicate_jobs X) ∧
    (∀ X : List SJob,
      JobSources.deduplicate_jobs (JobSources.deduplicate_jobs X) =
        JobSources.deduplicate_jobs X) := by
  constructor
  · intro X
    have h := JobScraperPy.dedup_go_invariant X []
    exact JobScraperPy.dedup_go_fixed _ [] h.1 (fun j hj => by simp)
  · intro X
    have h := JobSources.src_dedup_go_invariant X []
    exact JobSources.src_dedup_go_fixed _ [] h.1 (fun j hj => ⟨(h.2 j hj).1, by simp⟩)

/-- **C2.** The code contradicts the claimed identity rule: neither
deduplicator falls back to a content digest of (title, company,
location) when `job_url` is empty.  On two valid records that both
lack a `job_url` but differ in title, company and location,
`JobScraper.deduplicate_jobs` (`job_scraper.py`) keeps only the first
(the empty URL collides with itself), and `BaseJobSource.deduplicate_jobs`
(`job_sources.py`) drops both — partial records are silently dropped,
contrary to the claim. -/
theorem deduplicate_jobs_drops_partial_records :
    JobScraperPy.deduplicate_jobs
        [{ title := "AI Engineer", company := "Acme", location := "Dubai", job_url := "" },
         { title := "Data Scientist", company := "Beta", location := "Remote", job_url := "" }] =
      [{ title := "AI Engineer", company := "Acme", location := "Dubai", job_url := "" }] ∧
    JobSources.deduplicate_jobs
        [{ title := "AI Engineer", company := "Acme", location := "Dubai", job_url := "" },
         { title := "Data Scientist", company := "Beta", location := "Remote", job_url := "" }] =
      [] := by
  constructor <;> rfl

/-! ## `scraper_service.py` — `is_cookie_file_stale` and `load_cookies`

```python
def is_cookie_file_stale(filepath, max_age_days=7):
    if not os.path.exists(filepath):
        return True
    mod_time = datetime.fromtimestamp(os.path.getmtime(filepath))
    return datetime.now() - mod_time > timedelta(days=max_age_days)

async def load_cookies(self, platform):
    try:
        cookie_file = f"{platform}_cookies.json"
        if is_cookie_file_stale(cookie_file):
            return False
        with open(cookie_file, 'r') as f:
            cookies = json.load(f)
        if not cookies:
            return False
        await self.context.add_cookies(cookies)
        return True
    except Exception as e:
        return False
```
-/

namespace ScraperService

/-- The observable state of a cookie file: whether it exists, its
modification time (seconds since the epoch), and what `json.load`
yields on its contents (`none` models a raised parse error). -/
structure CookieFile where
  file_exists : Bool
  mtime : Int
  parse : Option (List String)
deriving DecidableEq, Repr

/-- `is_cookie_file_stale`, with `now` the current time in seconds;
a `timedelta` of `d` days is `d * 86400` seconds. -/
def is_cookie_file_stale (f : CookieFile) (now : Int) (max_age_days : Int := 7) : Bool :=
  if !f.file_exists then true
  else decide (now - f.mtime > max_age_days * 86400)

/-- `JobScraper.load_cookies` from `scraper_service.py`; `addCookies`
is the oracle for `context.add_cookies` (which may raise). -/
def load_cookies (f : CookieFile) (now : Int) (addCookies : Except PyErr Unit) : Bool :=
  if is_cookie_file_stale f now then false
  else
    match f.parse with
    | none => false
    | some cookies =>
      if cookies.isEmpty then false
      else
        match addCookies with
        | .ok _ => true
        | .error _ => false

end ScraperService

/-- **C6.** A cookie file that does not exist, or whose modification
time lies more than 7 days in the past, is reported absent:
`load_cookies` returns `false` whatever the file's contents and
whatever the browser context does. -/
theorem load_cookies_stale_reports_absent (f : ScraperService.CookieFile) (now : Int)
    (addCookies : Except PyErr Unit)
    (h : f.file_exists = false ∨ now - f.mtime > 7 * 86400) :
    ScraperService.load_cookies f now addCookies = false := by
  have hstale : ScraperService.is_cookie_file_stale f now = true := by
    unfold ScraperService.is_cookie_file_stale
    rcases h with h | h
    · simp [h]
    · simp
      omega
  unfold ScraperService.load_cookies
  simp [hstale]

/-- Witness for **C6**: a well-formed, non-empty cookie file saved 8
days ago (now = 8·86400, mtime = 0) is still reported absent. -/
theorem load_cookies_stale_reports_absent_witness :
    ScraperService.load_cookies
      { file_exists := true, mtime := 0, parse := some ["li_at=abc"] }
      (8 * 86400) (.ok ()) = false :=
  load_cookies_stale_reports_absent
    { file_exists := true, mtime := 0, parse := some ["li_at=abc"] }
    (8 * 86400) (.ok ()) (Or.inr (by decide))

/-! ## String helpers shared by the embeddings

Python string primitives used by the source, modelled over `List Char`
at the ASCII level (all the patterns and markers in the source are
ASCII). -/

/-- `needle` is a prefix of `hay` (char-exact). -/
def startsWithL : List Char → List Char → Bool
  | [], _ => true
  | _ :: _, [] => false
  | n :: ns, h :: hs => n = h && startsWithL ns hs

/-- Python's `needle in hay` substring test, on char lists. -/
def containsSubL (needle : List Char) : List Char → Bool
  | [] => needle.isEmpty
  | c :: rest => startsWithL needle (c :: rest) || containsSubL needle rest

/-- Python's `needle in hay` substring test, on strings. -/
def pyIn (needle hay : String) : Bool := containsSubL needle.data hay.data

/-- Python's `str.lower()` (ASCII model, as in the source's uses). -/
def pyLower (s : String) : String := String.mk (s.data.map Char.toLower)

/-- Python's `\s` / `str.strip()` whitespace class (ASCII part). -/
def isSpaceCh (c : Char) : Bool :=
  c = ' ' || c = '\t' || c = '\n' || c = '\r' || c = '\x0b' || c = '\x0c'

/-- Python's `str.strip()` on char lists. -/
def stripL (cs : List Char) : List Char :=
  ((cs.dropWhile isSpaceCh).reverse.dropWhile isSpaceCh).reverse

/-- Python's `str.strip()` on strings. -/
def pyStrip (s : String) : String := String.mk (stripL s.data)

/-- Numeric value of a (non-empty) run of decimal digits, as Python's
`int()`. -/
def digitsToNat (ds : List Char) : Nat :=
  ds.foldl (fun acc c => acc * 10 + (c.toNat - 48)) 0

/-- Characters below the surrogate range round-trip through
`Char.ofNat`. -/
theorem toNat_ofNat_valid {n : Nat} (h : n < 55296) : (Char.ofNat n).toNat = n := by
  rw [Char.ofNat, dif_pos (Or.inl h)]
  rfl

/-- `≤` on `UInt32` is `≤` of the underlying numerals. -/
theorem uint32_le_iff {a b : UInt32} : a ≤ b ↔ a.toNat ≤ b.toNat := by
  rw [UInt32.le_def, BitVec.le_def]
  exact Iff.rfl

/-- Lower-casing never creates or destroys a decimal digit. -/
theorem isDigit_toLower (c : Char) : c.toLower.isDigit = c.isDigit := by
  show (if c.toNat ≥ 65 ∧ c.toNat ≤ 90 then Char.ofNat (c.toNat + 32) else c).isDigit = c.isDigit
  split
  next h =>
    have h65 : 65 ≤ c.toNat := h.1
    have hval : (Char.ofNat (c.toNat + 32)).toNat = c.toNat + 32 :=
      toNat_ofNat_valid (by omega)
    have h1 : (Char.ofNat (c.toNat + 32)).isDigit = false := by
      have : ¬ ((Char.ofNat (c.toNat + 32)).val ≤ (57 : UInt32)) := by
        rw [uint32_le_iff]
        show ¬ ((Char.ofNat (c.toNat + 32)).toNat ≤ 57)
        omega
      simp [Char.isDigit, this]
    have h2 : c.isDigit = false := by
      have : ¬ (c.val ≤ (57 : UInt32)) := by
        rw [uint32_le_iff]
        show ¬ (c.toNat ≤ 57)
        omega
      simp [Char.isDigit, this]
    rw [h1, h2]
  next => rfl

/-! ## `job_application.py` — `JobApplication.apply_to_job`

```python
@retry(stop=stop_after_attempt(3), wait=..., retry=retry_if_exception_type(Exception),
       reraise=True)
async def apply_to_job(self, job, user_profile) -> bool:
    try:
        source = job.get('source', '').lower()
        apply_url = job.get('apply_url') or job.get('url')
        if not apply_url:
            return False
        await self.page.goto(apply_url, wait_until='networkidle')
        if 'linkedin' in source:
            success = await self._handle_linkedin_application(job, user_profile)
        elif 'indeed' in source:
            success = await self._handle_indeed_application(job, user_profile)
        else:
            return False
        if success:
            self.sheets_logger.mark_applied(job['url'])
            logger.info(f"Successfully applied to {job['title']} at {job['company']}")
            return True
        else:
            logger.error(f"Failed to apply to {job['title']} at {job['company']}")
            return False
    except Exception as e:
        logger.error(f"Error applying to job: {e}")
        notify_slack(f"Job application failed: {e}")
        return False
```

`notify_slack` is a logging stub that cannot raise, so the `except`
arm is total.  The handlers, `page.goto` and `mark_applied` are
oracles.  `job['url']`, `job['title']`, `job['company']` are read with
`[]` and can raise `KeyError`, hence `Option` fields.
-/

namespace JobApplicationPy

/-- Fields of the job dictionary read by `apply_to_job`. -/
structure AppJob where
  source : String := ""
  apply_url : String := ""
  url : Option String := none
  title : Option String := none
  company : Option String := none
deriving DecidableEq, Repr

/-- Oracles for the fallible steps of the application flow. -/
structure Env where
  goto : Except PyErr Unit
  linkedinHandler : Except PyErr Bool
  indeedHandler : Except PyErr Bool
  markApplied : Except PyErr Unit

/-- Python `d[k]`: raises `KeyError` when the key is absent. -/
def getItem : Option String → Except PyErr String
  | some v => .ok v
  | none => .error "KeyError"

/-- The `try` block of `apply_to_job`: everything that can raise. -/
def apply_to_job_body (job : AppJob) (env : Env) : Except PyErr Bool := do
  let source := pyLower job.source
  let applyUrlVal : Option String :=
    if job.apply_url ≠ "" then some job.apply_url else job.url
  match applyUrlVal with
  | none => return false
  | some u =>
    if u = "" then return false
    else do
      let _ ← env.goto
      let success ←
        if pyIn "linkedin" source then env.linkedinHandler
        else if pyIn "indeed" source then env.indeedHandler
        else return (false : Bool)
      if success then do
        let _ ← getItem job.url
        let _ ← env.markApplied
        let _ ← getItem job.title
        let _ ← getItem job.company
        return true
      else do
        let _ ← getItem job.title
        let _ ← getItem job.company
        return false

/-- One call of the decorated function: the `try/except` maps every
raised exception to `False` (after logging and the non-raising Slack
stub). -/
def apply_to_job_once (job : AppJob) (env : Env) : Except PyErr Bool :=
  match apply_to_job_body job env with
  | .ok b => .ok b
  | .error _ => .ok false

/-- The tenacity `@retry(stop=stop_after_attempt(3), reraise=True)`
wrapper: up to three calls, the last error reraised. -/
def retryStop3 (f : Unit → Except PyErr Bool) : Except PyErr Bool :=
  match f () with
  | .ok b => .ok b
  | .error _ =>
    match f () with
    | .ok b => .ok b
    | .error _ => f ()

/-- `JobApplication.apply_to_job` as seen by its caller. -/
def apply_to_job (job : AppJob) (env : Env) : Except PyErr Bool :=
  retryStop3 (fun _ => apply_to_job_once job env)

end JobApplicationPy

/-- **C7.** `apply_to_job` always returns a boolean to its caller and
never propagates an exception: whatever the job dictionary and
whatever any step of the flow does (navigation, handlers, sheet
update, `KeyError` on dictionary access), the result is `Except.ok`;
and whenever the `try` block raises, the returned boolean is `false`. -/
theorem apply_to_job_never_raises :
    (∀ (job : JobApplicationPy.AppJob) (env : JobApplicationPy.Env),
      ∃ b : Bool, JobApplicationPy.apply_to_job job env = .ok b) ∧
    (∀ (job : JobApplicationPy.AppJob) (env : JobApplicationPy.Env) (e : PyErr),
      JobApplicationPy.apply_to_job_body job env = .error e →
      JobApplicationPy.apply_to_job job env = .ok false) := by
  have honce : ∀ job env, ∃ b : Bool,
      JobApplicationPy.apply_to_job_once job env = .ok b := by
    intro job env
    unfold JobApplicationPy.apply_to_job_once
    cases JobApplicationPy.apply_to_job_body job env with
    | ok b => exact ⟨b, rfl⟩
    | error e => exact ⟨false, rfl⟩
  constructor
  · intro job env
    obtain ⟨b, hb⟩ := honce job env
    refine ⟨b, ?_⟩
    unfold JobApplicationPy.apply_to_job JobApplicationPy.retryStop3
    rw [hb]
  · intro job env e herr
    have hb : JobApplicationPy.apply_to_job_once job env = .ok false := by
      unfold JobApplicationPy.apply_to_job_once
      rw [herr]
    unfold JobApplicationPy.apply_to_job JobApplicationPy.retryStop3
    rw [hb]

/-- Witness for **C7**: a navigation failure on a concrete LinkedIn job
is swallowed and reported as `false`. -/
theorem apply_to_job_never_raises_witness :
    JobApplicationPy.apply_to_job
      { source := "LinkedIn", apply_url := "https://www.linkedin.com/jobs/view/1" }
      { goto := .error "net::ERR_TIMED_OUT", linkedinHandler := .ok true,
        indeedHandler := .ok true, markApplied := .ok () } = .ok false :=
  apply_to_job_never_raises.2
    { source := "LinkedIn", apply_url := "https://www.linkedin.com/jobs/view/1" }
    { goto := .error "net::ERR_TIMED_OUT", linkedinHandler := .ok true,
      indeedHandler := .ok true, markApplied := .ok () }
    "net::ERR_TIMED_OUT" rfl

/-! ## `helpers.py` — `parse_salary_text`

```python
def parse_salary_text(salary_text):
    if not salary_text:
        return None
    salary_text = salary_text.replace(",", "").lower()
    if match := re.search(r'aed\s*(\d+)', salary_text):
        return int(match.group(1))
    if match := re.search(r'cad\s*(\d+)', salary_text):
        return int(int(match.group(1)) * 2.7)
    if match := re.search(r'usd\s*(\d+)', salary_text):
        return int(int(match.group(1)) * 3.67)
    if match := re.search(r'(\d+)', salary_text):
        return int(match.group(1))
    return None
```

`re.search(r'M\s*(\d+)', t)` for a literal marker `M` succeeds at the
leftmost position where `M` occurs followed by optional whitespace and
at least one digit, the group being the maximal digit run there;
`re.search(r'(\d+)', t)` captures the first maximal digit run.  These
are embedded directly below.  The two float conversions are modelled
by exact rational truncation (`int(n * 2.7)` ↦ `n * 27 / 10`,
`int(n * 3.67)` ↦ `n * 367 / 100`), exact for the magnitudes the
docstring documents.
-/

/-- Attempt of the pattern `M\s*(\d+)` anchored at the start of `cs`
(`M` the marker): the digit run, if the anchor matches here. -/
def afterMarkerNum (m cs : List Char) : Option Nat :=
  if startsWithL m cs then
    if (((cs.drop m.length).dropWhile isSpaceCh).takeWhile Char.isDigit).isEmpty then none
    else some (digitsToNat (((cs.drop m.length).dropWhile isSpaceCh).takeWhile Char.isDigit))
  else none

/-- `re.search(r'M\s*(\d+)', cs)`: leftmost anchor position wins. -/
def searchMarkerNum (m : List Char) : List Char → Option Nat
  | [] => none
  | c :: rest =>
    match afterMarkerNum m (c :: rest) with
    | some n => some n
    | none => searchMarkerNum m rest

/-- `re.search(r'(\d+)', cs)`: the first maximal digit run. -/
def searchNum : List Char → Option Nat
  | [] => none
  | c :: rest =>
    if c.isDigit then some (digitsToNat ((c :: rest).takeWhile Char.isDigit))
    else searchNum rest

/-- `parse_salary_text` from `helpers.py`. -/
def parse_salary_text (salary_text : String) : Option Nat :=
  if salary_text = "" then none
  else
    match searchMarkerNum "aed".data
        ((salary_text.data.filter (fun c => c ≠ ',')).map Char.toLower) with
    | some n => some n
    | none =>
      match searchMarkerNum "cad".data
          ((salary_text.data.filter (fun c => c ≠ ',')).map Char.toLower) with
      | some n => some (n * 27 / 10)
      | none =>
        match searchMarkerNum "usd".data
            ((salary_text.data.filter (fun c => c ≠ ',')).map Char.toLower) with
        | some n => some (n * 367 / 100)
        | none => searchNum ((salary_text.data.filter (fun c => c ≠ ',')).map Char.toLower)

theorem searchNum_none_iff (cs : List Char) :
    searchNum cs = none ↔ ∀ c ∈ cs, c.isDigit = false := by
  induction cs with
  | nil => simp [searchNum]
  | cons c rest ih =>
    by_cases h : c.isDigit
    · simp [searchNum, h]
    · have hc : c.isDigit = false := by rwa [Bool.not_eq_true] at h
      simp only [searchNum, if_neg h, List.mem_cons, forall_eq_or_imp, hc, true_and]
      exact ih

theorem afterMarkerNum_none_of_noDigit (m cs : List Char)
    (h : ∀ c ∈ cs, c.isDigit = false) : afterMarkerNum m cs = none := by
  unfold afterMarkerNum
  by_cases h1 : startsWithL m cs
  · have htw : ((cs.drop m.length).dropWhile isSpaceCh).takeWhile Char.isDigit = [] := by
      cases htl : (cs.drop m.length).dropWhile isSpaceCh with
      | nil => simp
      | cons d rest' =>
        have hd : d ∈ cs := by
          have hsub : List.Sublist ((cs.drop m.length).dropWhile isSpaceCh) cs :=
            (List.dropWhile_sublist _).trans (List.drop_sublist _ _)
          exact hsub.subset (htl ▸ List.mem_cons_self d rest')
        simp [List.takeWhile_cons, h d hd]
    simp [h1, htw]
  · simp [h1]

theorem searchMarkerNum_none_of_noDigit (m : List Char) (cs : List Char)
    (h : ∀ c ∈ cs, c.isDigit = false) : searchMarkerNum m cs = none := by
  induction cs with
  | nil => rfl
  | cons c rest ih =>
    rw [searchMarkerNum, afterMarkerNum_none_of_noDigit m _ h]
    exact ih (fun d hd => h d (List.mem_cons_of_mem _ hd))

theorem afterMarkerNum_some_has_digit (m cs : List Char) (n : Nat)
    (h : afterMarkerNum m cs = some n) : ∃ c ∈ cs, c.isDigit = true := by
  by_contra hno
  push_neg at hno
  rw [afterMarkerNum_none_of_noDigit m cs
    (fun c hc => by simpa using hno c hc)] at h
  exact Option.noConfusion h

/-- Digit occurrence is invariant under the comma-removal and
lower-casing preprocessing of `parse_salary_text`. -/
theorem noDigit_transform_iff (s : String) :
    (∀ c ∈ (s.data.filter (fun c => c ≠ ',')).map Char.toLower, c.isDigit = false) ↔
    (∀ c ∈ s.data, c.isDigit = false) := by
  constructor
  · intro h c hc
    by_contra hd
    rw [Bool.not_eq_false] at hd
    have hne : c ≠ ',' := by
      intro he
      rw [he] at hd
      exact absurd hd (by decide)
    have hmem : c.toLower ∈ (s.data.filter (fun c => c ≠ ',')).map Char.toLower :=
      List.mem_map_of_mem _ (List.mem_filter_of_mem hc (by simpa using hne))
    have := h _ hmem
    rw [isDigit_toLower] at this
    rw [hd] at this
    exact Bool.noConfusion this
  · intro h c hc
    rcases List.mem_map.1 hc with ⟨d, hd, rfl⟩
    rw [isDigit_toLower]
    exact h d (List.mem_of_mem_filter hd)

theorem parse_salary_text_none_iff (s : String) :
    parse_salary_text s = none ↔ (s = "" ∨ ∀ c ∈ s.data, c.isDigit = false) := by
  by_cases hs : s = ""
  · simp [parse_salary_text, hs]
  · unfold parse_salary_text
    rw [if_neg hs]
    constructor
    · intro hp
      rcases h1 : searchMarkerNum "aed".data
          ((s.data.filter (fun c => c ≠ ',')).map Char.toLower) with _ | n <;>
        rw [h1] at hp
      · rcases h2 : searchMarkerNum "cad".data
            ((s.data.filter (fun c => c ≠ ',')).map Char.toLower) with _ | n <;>
          rw [h2] at hp
        · rcases h3 : searchMarkerNum "usd".data
              ((s.data.filter (fun c => c ≠ ',')).map Char.toLower) with _ | n <;>
            rw [h3] at hp
          · exact Or.inr ((noDigit_transform_iff s).1 ((searchNum_none_iff _).1 hp))
          · exact Option.noConfusion hp
        · exact Option.noConfusion hp
      · exact Option.noConfusion hp
    · rintro (rfl | h)
      · exact absurd rfl hs
      · have ht := (noDigit_transform_iff s).2 h
        rw [searchMarkerNum_none_of_noDigit _ _ ht, searchMarkerNum_none_of_noDigit _ _ ht,
          searchMarkerNum_none_of_noDigit _ _ ht]
        exact (searchNum_none_iff _).2 ht

/-- **C10.** `parse_salary_text` returns `none` iff its argument is
empty or digit-free; otherwise it yields a (non-negative) natural
number.  The currency markers are tried in the fixed order AED
(unconverted), CAD (× 2.7), USD (× 3.67), then the first bare number:
the CAD-before-USD order is exhibited on a text containing both
("USD 10 CAD 20" converts the CAD amount), the AED-before-CAD order
likewise, and the range "AED 15,000 - 20,000" yields its lower bound
15000. -/
theorem parse_salary_text_spec :
    (∀ s : String, parse_salary_text s = none ↔
      (s = "" ∨ ∀ c ∈ s.data, c.isDigit = false)) ∧
    parse_salary_text "AED 15,000 - 20,000" = some 15000 ∧
    parse_salary_text "CAD 1,000" = some 2700 ∧
    parse_salary_text "USD 5,000" = some 18350 ∧
    parse_salary_text "USD 10 CAD 20" = some 54 ∧
    parse_salary_text "CAD 10 AED 20" = some 20 ∧
    parse_salary_text "circa 1200 dirhams" = some 1200 :=
  ⟨parse_salary_text_none_iff, by decide, by decide, by decide, by decide, by decide, by decide⟩

/-- Witness for **C10**: the iff applied at a concrete digit-free
input. -/
theorem parse_salary_text_spec_witness :
    parse_salary_text "negotiable" = none :=
  (parse_salary_text_spec.1 "negotiable").mpr (Or.inr (by decide))

/-! ## `helpers.py` — `hash_job` (MD5 content digest)

```python
def hash_job(title, company, location):
    job_string = f"{title.strip().lower()}_{company.strip().lower()}_{location.strip().lower()}"
    return hashlib.md5(job_string.encode()).hexdigest()
```

`hashlib.md5(...).hexdigest()` is embedded as a complete MD5
implementation over byte lists (RFC 1321), with `str.encode()` as
UTF-8. -/

/-- UTF-8 encoding of one scalar value (`str.encode()`). -/
def utf8Bytes (c : Char) : List Nat :=
  let n := c.toNat
  if n < 128 then [n]
  else if n < 2048 then [192 + n / 64, 128 + n % 64]
  else if n < 65536 then [224 + n / 4096, 128 + (n / 64) % 64, 128 + n % 64]
  else [240 + n / 262144, 128 + (n / 4096) % 64, 128 + (n / 64) % 64, 128 + n % 64]

/-- `str.encode()`: the UTF-8 bytes of a string. -/
def strBytes (s : String) : List Nat := (s.data.map utf8Bytes).flatten

/-- The 64 MD5 sine-table constants. -/
def md5K : List Nat :=
  [0xd76aa478, 0xe8c7b756, 0x242070db, 0xc1bdceee,
   0xf57c0faf, 0x4787c62a, 0xa8304613, 0xfd469501,
   0x698098d8, 0x8b44f7af, 0xffff5bb1, 0x895cd7be,
   0x6b901122, 0xfd987193, 0xa679438e, 0x49b40821,
   0xf61e2562, 0xc040b340, 0x265e5a51, 0xe9b6c7aa,
   0xd62f105d, 0x02441453, 0xd8a1e681, 0xe7d3fbc8,
   0x21e1cde6, 0xc33707d6, 0xf4d50d87, 0x455a14ed,
   0xa9e3e905, 0xfcefa3f8, 0x676f02d9, 0x8d2a4c8a,
   0xfffa3942, 0x8771f681, 0x6d9d6122, 0xfde5380c,
   0xa4beea44, 0x4bdecfa9, 0xf6bb4b60, 0xbebfbc70,
   0x289b7ec6, 0xeaa127fa, 0xd4ef3085, 0x04881d05,
   0xd9d4d039, 0xe6db99e5, 0x1fa27cf8, 0xc4ac5665,
   0xf4292244, 0x432aff97, 0xab9423a7, 0xfc93a039,
   0x655b59c3, 0x8f0ccc92, 0xffeff47d, 0x85845dd1,
   0x6fa87e4f, 0xfe2ce6e0, 0xa3014314, 0x4e0811a1,
   0xf7537e82, 0xbd3af235, 0x2ad7d2bb, 0xeb86d391]

/-- The 64 MD5 per-round left-rotation amounts. -/
def md5S : List Nat :=
  [7, 12, 17, 22, 7, 12, 17, 22, 7, 12, 17, 22, 7, 12, 17, 22,
   5, 9, 14, 20, 5, 9, 14, 20, 5, 9, 14, 20, 5, 9, 14, 20,
   4, 11, 16, 23, 4, 11, 16, 23, 4, 11, 16, 23, 4, 11, 16, 23,
   6, 10, 15, 21, 6, 10, 15, 21, 6, 10, 15, 21, 6, 10, 15, 21]

/-- 32-bit complement of a word `< 2^32`. -/
def wnot (a : Nat) : Nat := 4294967295 - a

/-- 32-bit left rotation of a word `< 2^32`. -/
def rotl32 (x s : Nat) : Nat := ((x <<< s) % 4294967296) ||| (x >>> (32 - s))

/-- Little-endian byte decomposition of a number. -/
def leBytes (n count : Nat) : List Nat :=
  (List.range count).map (fun i => (n >>> (8 * i)) % 256)

/-- MD5 padding: `0x80`, zeros to 56 mod 64, then the 64-bit
little-endian bit length. -/
def md5Pad (msg : List Nat) : List Nat :=
  msg ++ [128] ++ List.replicate ((120 - (msg.length + 1) % 64) % 64) 0
    ++ leBytes ((msg.length * 8) % 18446744073709551616) 8

/-- Split a byte list into 64-byte chunks (fuel = list length). -/
def chunks64 : Nat → List Nat → List (List Nat)
  | 0, _ => []
  | _, [] => []
  | fuel + 1, l => l.take 64 :: chunks64 fuel (l.drop 64)

/-- The sixteen 32-bit little-endian words of one 64-byte chunk. -/
def chunkWords (ch : List Nat) : List Nat :=
  (List.range 16).map (fun i =>
    ch.getD (4 * i) 0 + 256 * ch.getD (4 * i + 1) 0 + 65536 * ch.getD (4 * i + 2) 0
      + 16777216 * ch.getD (4 * i + 3) 0)

/-- One of the 64 MD5 rounds on state (a, b, c, d). -/
def md5Step (M : List Nat) (st : Nat × Nat × Nat × Nat) (i : Nat) : Nat × Nat × Nat × Nat :=
  let a := st.1
  let b := st.2.1
  let c := st.2.2.1
  let d := st.2.2.2
  let fg : Nat × Nat :=
    if i < 16 then ((b &&& c) ||| (wnot b &&& d), i)
    else if i < 32 then ((d &&& b) ||| (wnot d &&& c), (5 * i + 1) % 16)
    else if i < 48 then (b ^^^ c ^^^ d, (3 * i + 5) % 16)
    else (c ^^^ (b ||| wnot d), (7 * i) % 16)
  let f := (fg.1 + a + md5K.getD i 0 + M.getD fg.2 0) % 4294967296
  (d, (b + rotl32 f (md5S.getD i 0)) % 4294967296, b, c)

/-- Absorb one 64-byte chunk into the MD5 state. -/
def md5Chunk (h : Nat × Nat × Nat × Nat) (ch : List Nat) : Nat × Nat × Nat × Nat :=
  let st := (List.range 64).foldl (md5Step (chunkWords ch)) h
  ((h.1 + st.1) % 4294967296, (h.2.1 + st.2.1) % 4294967296,
   (h.2.2.1 + st.2.2.1) % 4294967296, (h.2.2.2 + st.2.2.2) % 4294967296)

/-- One lowercase hex digit. -/
def hexDigit (n : Nat) : Char :=
  if n < 10 then Char.ofNat (48 + n) else Char.ofNat (87 + n)

/-- Lowercase hex rendering of a byte list. -/
def bytesToHex (bs : List Nat) : List Char :=
  bs.foldr (fun b acc => hexDigit (b / 16) :: hexDigit (b % 16) :: acc) []

/-- `hashlib.md5(msg).hexdigest()`. -/
def md5Hex (msg : List Nat) : String :=
  let padded := md5Pad msg
  let h := (chunks64 padded.length padded).foldl md5Chunk
    (1732584193, 4023233417, 2562383102, 271733878)
  String.mk (bytesToHex (leBytes h.1 4 ++ leBytes h.2.1 4 ++ leBytes h.2.2.1 4 ++ leBytes h.2.2.2 4))

/-- `hash_job` from `helpers.py`. -/
def hash_job (title company location : String) : String :=
  md5Hex (strBytes (pyLower (pyStrip title) ++ "_" ++ pyLower (pyStrip company)
    ++ "_" ++ pyLower (pyStrip location)))

/-! ## `email_scanner.py` — job records and the hash-keyed deduplication

```python
# parse_job_email, lines 381-397
unique_jobs = []
seen_hashes = set()
for job in jobs:
    job_hash = hash_job(job.get('title', ''), job.get('company', ''), job.get('location', ''))
    if job_hash not in seen_hashes:
        unique_jobs.append(job)
        seen_hashes.add(job_hash)
return unique_jobs
```
-/

/-- The job dictionary built by the e-mail pattern matchers. -/
structure EJob where
  title : String := ""
  company : String := ""
  location : String := ""
  salary_text : String := ""
  job_url : String := ""
  full_description : String := ""
  source : String := ""
  apply_url : String := ""
deriving DecidableEq, Repr

/-- The deduplication loop at the end of `parse_job_email`, keyed on
`hash_job(title, company, location)`. -/
def dedupJobsByHash_go (seen : List String) : List EJob → List EJob
  | [] => []
  | j :: rest =>
    if hash_job j.title j.company j.location ∈ seen then dedupJobsByHash_go seen rest
    else j :: dedupJobsByHash_go (hash_job j.title j.company j.location :: seen) rest

/-- The final deduplication of `parse_job_email`. -/
def dedupJobsByHash (jobs : List EJob) : List EJob := dedupJobsByHash_go [] jobs

/-- **C9.** The final deduplication of `parse_job_email` is keyed on the
digest of the normalized (stripped, lower-cased) (title, company,
location) tuple and ignores `job_url`: two jobs agreeing on the
normalized tuple but with different `job_url`s collapse to the first. -/
theorem dedupJobsByHash_ignores_job_url (j1 j2 : EJob)
    (ht : pyLower (pyStrip j1.title) = pyLower (pyStrip j2.title))
    (hc : pyLower (pyStrip j1.company) = pyLower (pyStrip j2.company))
    (hl : pyLower (pyStrip j1.location) = pyLower (pyStrip j2.location))
    (_hu : j1.job_url ≠ j2.job_url) :
    dedupJobsByHash [j1, j2] = [j1] := by
  have hhash : hash_job j2.title j2.company j2.location =
      hash_job j1.title j1.company j1.location := by
    unfold hash_job
    rw [ht, hc, hl]
  unfold dedupJobsByHash
  rw [dedupJobsByHash_go, if_neg (by simp)]
  rw [dedupJobsByHash_go, if_pos (by simp [hhash])]
  rfl

/-- Witness for **C9**: two raw-distinct records (different case,
whitespace and URLs) with the same normalized tuple collapse to the
first. -/
theorem dedupJobsByHash_ignores_job_url_witness :
    dedupJobsByHash
      [{ title := "AI Engineer ", company := "Acme", location := "Dubai",
         job_url := "https://a.example/1" },
       { title := "ai engineer", company := " ACME ", location := "DUBAI",
         job_url := "https://b.example/2" }] =
      [{ title := "AI Engineer ", company := "Acme", location := "Dubai",
         job_url := "https://a.example/1" }] :=
  dedupJobsByHash_ignores_job_url _ _ (by decide) (by decide) (by decide) (by decide)

/-! ## A backtracking regex engine for the `re` patterns of `email_scanner.py`

Python's `re` uses leftmost-start, backtracking semantics: at the
leftmost start position where a match exists, alternatives are tried
left to right, greedy quantifiers prefer longer and lazy quantifiers
shorter expansions.  The engine below implements exactly these
semantics in continuation-passing style with an explicit fuel bound on
backtracking depth (the fuel is chosen large enough that it is never
exhausted on the inputs considered; every quantifier body in the
source's patterns consumes at least one character).  Group captures
follow Python: the last text captured by a group wins. -/

namespace Rx

/-- Regex syntax: character classes as predicates, sequencing,
left-biased alternation, star (greedy or lazy), capture groups. -/
inductive RE where
  | eps
  | cls (p : Char → Bool)
  | seq (a b : RE)
  | alt (a b : RE)
  | star (a : RE) (lazy : Bool)
  | group (idx : Nat) (a : RE)

/-- Captures: group index ↦ captured text, most recent first. -/
abbrev Caps := List (Nat × List Char)

/-- `m.group(i)`: the last text captured by group `i`, `""` if none. -/
def getCap (caps : Caps) (i : Nat) : String :=
  match caps.find? (fun p => p.1 == i) with
  | some p => String.mk p.2
  | none => ""

/-- The backtracking matcher: try `re` against a prefix of `cs`, then
the continuation `k` on what remains.  Branches are explored in
Python's preference order. -/
def mtch : Nat → RE → List Char → Caps →
    (List Char → Caps → Option (List Char × Caps)) → Option (List Char × Caps)
  | 0, _, _, _, _ => none
  | fuel + 1, re, cs, caps, k =>
    match re with
    | .eps => k cs caps
    | .cls p =>
      match cs with
      | [] => none
      | c :: rest => if p c then k rest caps else none
    | .seq a b => mtch fuel a cs caps (fun cs' caps' => mtch fuel b cs' caps' k)
    | .alt a b =>
      match mtch fuel a cs caps k with
      | some r => some r
      | none => mtch fuel b cs caps k
    | .star a lazy =>
      if lazy then
        match k cs caps with
        | some r => some r
        | none => mtch fuel a cs caps (fun cs' caps' =>
            if cs'.length < cs.length then mtch fuel (.star a lazy) cs' caps' k else none)
      else
        match mtch fuel a cs caps (fun cs' caps' =>
            if cs'.length < cs.length then mtch fuel (.star a lazy) cs' caps' k else none) with
        | some r => some r
        | none => k cs caps
    | .group i a => mtch fuel a cs caps (fun cs' caps' =>
        k cs' ((i, cs.take (cs.length - cs'.length)) :: caps'))

/-- Fuel bound on backtracking depth, ample for the source's patterns. -/
def mtchFuel (cs : List Char) : Nat := 64 * cs.length + 1024

/-- Leftmost search: the first start position admitting a match;
returns the suffix after the match and the captures. -/
def searchGo (fuel : Nat) (re : RE) : List Char → Option (List Char × Caps)
  | [] => mtch fuel re [] [] (fun cs' caps => some (cs', caps))
  | c :: rest =>
    match mtch fuel re (c :: rest) [] (fun cs' caps => some (cs', caps)) with
    | some r => some r
    | none => searchGo fuel re rest

/-- `re.search(pattern, cs)`: captures of the leftmost match (group 0
is the whole match). -/
def reSearch (re : RE) (cs : List Char) : Option Caps :=
  (searchGo (mtchFuel cs) (.group 0 re) cs).map (fun r => r.2)

/-- `re.finditer`: non-overlapping matches left to right, each next
search starting at the previous match's end. -/
def finditerGo (re : RE) : Nat → List Char → List Caps
  | 0, _ => []
  | fuel + 1, cs =>
    match searchGo (mtchFuel cs) re cs with
    | none => []
    | some (cs', caps) =>
      caps :: (if cs'.length < cs.length then finditerGo re fuel cs' else [])

/-- All matches of `re` in `cs`, as capture sets. -/
def reFinditer (re : RE) (cs : List Char) : List Caps :=
  finditerGo (.group 0 re) (cs.length + 1) cs

/-- Case-sensitive literal character. -/
def chE (c : Char) : RE := .cls (fun x => x == c)

/-- Case-insensitive literal character (`re.IGNORECASE`). -/
def chI (c : Char) : RE := .cls (fun x => x.toLower == c.toLower)

/-- Case-sensitive literal string. -/
def litE (s : String) : RE := s.data.foldr (fun c acc => RE.seq (chE c) acc) .eps

/-- Case-insensitive literal string. -/
def litI (s : String) : RE := s.data.foldr (fun c acc => RE.seq (chI c) acc) .eps

/-- Sequence a list of regexes. -/
def seqAll (rs : List RE) : RE := rs.foldr RE.seq .eps

/-- Three-way alternation, left to right. -/
def alt3 (a b c : RE) : RE := .alt a (.alt b c)

/-- `.` under `re.DOTALL`. -/
def anyCh : RE := .cls (fun _ => true)

/-- `[^\n]`, also `.` without `DOTALL`. -/
def notNl : RE := .cls (fun c => c != '\n')

/-- `\d` (ASCII). -/
def digitCh : RE := .cls Char.isDigit

/-- `\s` (ASCII). -/
def spaceCh : RE := .cls isSpaceCh

/-- `[^\s]`. -/
def notSpaceCh : RE := .cls (fun c => !(isSpaceCh c))

/-- `[a-z]` under `re.IGNORECASE`. -/
def azICh : RE := .cls (fun c => decide ('a' ≤ c.toLower) && decide (c.toLower ≤ 'z'))

/-- `[a-z]` case-sensitive. -/
def azECh : RE := .cls (fun c => decide ('a' ≤ c) && decide (c ≤ 'z'))

/-- `[a-zA-Z0-9]`. -/
def alnumCh : RE := .cls Char.isAlphanum

/-- `[\d,]`. -/
def digitCommaCh : RE := .cls (fun c => c.isDigit || c == ',')

/-- `[:\s]`. -/
def colonSpaceCh : RE := .cls (fun c => c == ':' || isSpaceCh c)

/-- Greedy `+`. -/
def rplus (a : RE) : RE := .seq a (.star a false)

/-- Lazy `+?`. -/
def rplusL (a : RE) : RE := .seq a (.star a true)

/-- Greedy `*`. -/
def rstarG (a : RE) : RE := .star a false

/-- Lazy `*?`. -/
def rstarL (a : RE) : RE := .star a true

/-- Greedy `?`. -/
def ropt (a : RE) : RE := .alt a .eps

end Rx

/-! ## `email_scanner.py` — the four pattern matchers

The patterns below transcribe the `re.compile`/`re.search` patterns of
`_parse_linkedin_job_alert`, `_parse_indeed_job_alert`,
`_parse_glassdoor_job_alert` and `_parse_generic_job_alert` verbatim
(group numbers in order of opening parentheses; the three job
patterns carry `re.DOTALL | re.IGNORECASE`, the secondary
`re.search` calls have no flags except the two salary searches'
`re.IGNORECASE`). -/

open Rx in
/-- `r'(?P<title>[^\n]+?)\s+at\s+(?P<company>[^\n]+?)\s*\n.*?(?P<location>[^\n]+?)\s*\n.*?(https://www\.linkedin\.com/jobs/view/(?P<job_id>\d+))'` -/
def liJobPattern : Rx.RE := seqAll [
  .group 1 (rplusL notNl), rplus spaceCh, litI "at", rplus spaceCh,
  .group 2 (rplusL notNl), rstarG spaceCh, chE '\n',
  rstarL anyCh,
  .group 3 (rplusL notNl), rstarG spaceCh, chE '\n',
  rstarL anyCh,
  .group 4 (.seq (litI "https://www.linkedin.com/jobs/view/") (.group 5 (rplus digitCh)))]

open Rx in
/-- `r'(https://www\.linkedin\.com/jobs/apply/[^\s]+)'` (no flags). -/
def liApplyPattern : Rx.RE :=
  .group 1 (.seq (litE "https://www.linkedin.com/jobs/apply/") (rplus notSpaceCh))

open Rx in
/-- `r'(?:salary|pay|compensation)[:\s]*([^\n]+)'` with `re.IGNORECASE`. -/
def liSalaryPattern : Rx.RE := seqAll [
  alt3 (litI "salary") (litI "pay") (litI "compensation"),
  rstarG colonSpaceCh, .group 1 (rplus notNl)]

open Rx in
/-- `r'(?P<title>[^\n]+?)\s*\n\s*(?P<company>[^\n]+?)\s*\n\s*(?P<location>[^\n]+?)\s*\n.*?(https://[a-z]{2}\.indeed\.com/viewjob\?jk=(?P<job_id>[a-zA-Z0-9]+))'` -/
def inJobPattern : Rx.RE := seqAll [
  .group 1 (rplusL notNl), rstarG spaceCh, chE '\n', rstarG spaceCh,
  .group 2 (rplusL notNl), rstarG spaceCh, chE '\n', rstarG spaceCh,
  .group 3 (rplusL notNl), rstarG spaceCh, chE '\n',
  rstarL anyCh,
  .group 4 (seqAll [litI "https://", azICh, azICh, litI ".indeed.com/viewjob?jk=",
    .group 5 (rplus alnumCh)])]

open Rx in
/-- `r'(https://[a-z]{2}\.indeed\.com/applystart/[^\s]+)'` (no flags). -/
def inApplyPattern : Rx.RE :=
  .group 1 (seqAll [litE "https://", azECh, azECh, litE ".indeed.com/applystart/",
    rplus notSpaceCh])

open Rx in
/-- `r'(?:AED|CAD|USD)\s*[\d,]+(?:\s*-\s*(?:AED|CAD|USD)\s*[\d,]+)?'` with `re.IGNORECASE`. -/
def inSalaryPattern : Rx.RE := seqAll [
  alt3 (litI "AED") (litI "CAD") (litI "USD"), rstarG spaceCh, rplus digitCommaCh,
  ropt (seqAll [rstarG spaceCh, chE '-', rstarG spaceCh,
    alt3 (litI "AED") (litI "CAD") (litI "USD"), rstarG spaceCh, rplus digitCommaCh])]

open Rx in
/-- `r'(?P<title>[^\n]+?)\s*\n\s*(?P<company>[^\n]+?)\s*\n\s*(?P<location>[^\n]+?)\s*\n.*?(https://www\.glassdoor\.com/job-listing/[^\s]+)'` -/
def gdJobPattern : Rx.RE := seqAll [
  .group 1 (rplusL notNl), rstarG spaceCh, chE '\n', rstarG spaceCh,
  .group 2 (rplusL notNl), rstarG spaceCh, chE '\n', rstarG spaceCh,
  .group 3 (rplusL notNl), rstarG spaceCh, chE '\n',
  rstarL anyCh,
  .group 4 (.seq (litI "https://www.glassdoor.com/job-listing/") (rplus notSpaceCh))]

open Rx in
/-- `r'(https://www\.glassdoor\.com/partner/jobListing/applyJobListing.htm\?jobListingId=\d+)'`
(no flags; the unescaped `.` before `htm` matches any non-newline). -/
def gdApplyPattern : Rx.RE :=
  .group 1 (seqAll [litE "https://www.glassdoor.com/partner/jobListing/applyJobListing",
    notNl, litE "htm?jobListingId=", rplus digitCh])

open Rx in
/-- `r'https?://[^\s]+'` (no flags), used by the generic matcher. -/
def urlPattern : Rx.RE := seqAll [litE "http", ropt (litE "s"), litE "://", rplus notSpaceCh]

/-- The per-match body of `_parse_linkedin_job_alert`'s loop. -/
def liJobOfMatch (body : List Char) (caps : Rx.Caps) : EJob :=
  let title := pyStrip (Rx.getCap caps 1)
  let company := pyStrip (Rx.getCap caps 2)
  let location := pyStrip (Rx.getCap caps 3)
  let job_url := pyStrip (Rx.getCap caps 4)
  let apply_url :=
    match Rx.reSearch liApplyPattern body with
    | some c' =>
      let u := pyStrip (Rx.getCap c' 1)
      if u == job_url then "" else u
    | none => ""
  let salary_text :=
    match Rx.reSearch liSalaryPattern (Rx.getCap caps 0).data with
    | some c' => pyStrip (Rx.getCap c' 1)
    | none => ""
  { title := title, company := company, location := location, salary_text := salary_text,
    job_url := job_url, full_description := "", source := "LinkedIn Email",
    apply_url := if apply_url != "" then apply_url else job_url }

/-- `EmailScanner._parse_linkedin_job_alert`. -/
def parse_linkedin_job_alert (email_body : String) : List EJob :=
  (Rx.reFinditer liJobPattern email_body.data).map (liJobOfMatch email_body.data)

/-- The per-match body of `_parse_indeed_job_alert`'s loop. -/
def inJobOfMatch (body : List Char) (caps : Rx.Caps) : EJob :=
  let title := pyStrip (Rx.getCap caps 1)
  let company := pyStrip (Rx.getCap caps 2)
  let location := pyStrip (Rx.getCap caps 3)
  let job_url := pyStrip (Rx.getCap caps 4)
  let apply_url :=
    match Rx.reSearch inApplyPattern body with
    | some c' =>
      let u := pyStrip (Rx.getCap c' 1)
      if u == job_url then "" else u
    | none => ""
  let salary_text :=
    match Rx.reSearch inSalaryPattern (Rx.getCap caps 0).data with
    | some c' => pyStrip (Rx.getCap c' 0)
    | none => ""
  { title := title, company := company, location := location, salary_text := salary_text,
    job_url := job_url, full_description := "", source := "Indeed Email",
    apply_url := if apply_url != "" then apply_url else job_url }

/-- `EmailScanner._parse_indeed_job_alert`. -/
def parse_indeed_job_alert (email_body : String) : List EJob :=
  (Rx.reFinditer inJobPattern email_body.data).map (inJobOfMatch email_body.data)

/-- The per-match body of `_parse_glassdoor_job_alert`'s loop. -/
def gdJobOfMatch (body : List Char) (caps : Rx.Caps) : EJob :=
  let title := pyStrip (Rx.getCap caps 1)
  let company := pyStrip (Rx.getCap caps 2)
  let location := pyStrip (Rx.getCap caps 3)
  let job_url := pyStrip (Rx.getCap caps 4)
  let apply_url :=
    match Rx.reSearch gdApplyPattern body with
    | some c' =>
      let u := pyStrip (Rx.getCap c' 1)
      if u == job_url then "" else u
    | none => ""
  { title := title, company := company, location := location, salary_text := "",
    job_url := job_url, full_description := "", source := "Glassdoor Email",
    apply_url := if apply_url != "" then apply_url else job_url }

/-- `EmailScanner._parse_glassdoor_job_alert`. -/
def parse_glassdoor_job_alert (email_body : String) : List EJob :=
  (Rx.reFinditer gdJobPattern email_body.data).map (gdJobOfMatch email_body.data)

/-- Python `s.split('\n')` on char lists. -/
def splitOnNl : List Char → List (List Char)
  | [] => [[]]
  | c :: rest =>
    if c = '\n' then [] :: splitOnNl rest
    else
      match splitOnNl rest with
      | [] => [[c]]
      | l :: ls => (c :: l) :: ls

/-- The role keywords of `_parse_generic_job_alert`. -/
def genKeywordHit (line : String) : Bool :=
  ["engineer", "manager", "analyst", "developer", "specialist"].any
    (fun kw => pyIn kw (pyLower line))

/-- One step of `_parse_generic_job_alert`'s inner window scan, on the
state (company, location, job_url, apply_url). -/
def genericScanLine (st : String × String × String × String) (raw : String) :
    String × String × String × String :=
  let next_line := pyStrip raw
  let company := st.1
  let location := st.2.1
  let job_url := st.2.2.1
  let apply_url := st.2.2.2
  if company = "" ∧ next_line ≠ "" ∧
      ¬(pyIn "http" next_line ∨ pyIn "@" next_line ∨ pyIn "salary" next_line) then
    (next_line, location, job_url, apply_url)
  else if location = "" ∧
      (pyIn "dubai" (pyLower next_line) ∨ pyIn "canada" (pyLower next_line) ∨
       pyIn "remote" (pyLower next_line) ∨ pyIn "uae" (pyLower next_line)) then
    (company, next_line, job_url, apply_url)
  else if pyIn "http" next_line then
    match Rx.reSearch urlPattern next_line.data with
    | some m =>
      if job_url = "" then (company, location, Rx.getCap m 0, apply_url)
      else (company, location, job_url, Rx.getCap m 0)
    | none => (company, location, job_url, apply_url)
  else (company, location, job_url, apply_url)

/-- `EmailScanner._parse_generic_job_alert`. -/
def parse_generic_job_alert (email_body : String) : List EJob :=
  let lines := (splitOnNl email_body.data).map String.mk
  (List.range lines.length).filterMap (fun i =>
    let line := lines.getD i ""
    if genKeywordHit line then
      let title := pyStrip line
      let st := ((lines.drop (i + 1)).take 4).foldl genericScanLine ("", "", "", "")
      if title ≠ "" ∧ st.1 ≠ "" then
        some { title := title, company := st.1, location := st.2.1, salary_text := "",
               job_url := st.2.2.1, full_description := "", source := "Generic Email",
               apply_url := if st.2.2.2 ≠ "" then st.2.2.2 else st.2.2.1 }
      else none
    else none)

/-- `EmailScanner.parse_job_email`: the four matchers in order, their
results concatenated, then the hash-keyed deduplication. -/
def parse_job_email (email_body : String) : List EJob :=
  dedupJobsByHash (parse_linkedin_job_alert email_body ++ parse_indeed_job_alert email_body
    ++ parse_glassdoor_job_alert email_body ++ parse_generic_job_alert email_body)

set_option maxRecDepth 400000

/-- The end-to-end example body of the specification. -/
def c4Body : String :=
  "Senior AI Engineer at TechCorp\nDubai, UAE\nAED 15,000 - 20,000 per month\nhttps://www.linkedin.com/jobs/view/12345"

/-- **C4, counterexample.** On the spec's example body,
`parse_job_email` does not return exactly one job: the generic
keyword matcher also fires on the first line (it contains
"engineer"), producing a second record with title "Senior AI Engineer
at TechCorp" and company "Dubai, UAE", and the final deduplication —
keyed on the (title, company, location) digest, not on `job_url` —
keeps both. -/
theorem parse_job_email_example_not_single : (parse_job_email c4Body).length ≠ 1 := by
  decide

/-- **C4, amended.** On the spec's example body `parse_job_email`
returns exactly two jobs: first the LinkedIn-parsed record with
title "Senior AI Engineer", company "TechCorp", location
"Dubai, UAE", `job_url` ending in `/12345` and `apply_url` equal to
`job_url`; second the generic-matcher artifact that takes the whole
first line as title and the location line as company, sharing the
same URL. -/
theorem parse_job_email_example_two_jobs :
    parse_job_email c4Body =
      [{ title := "Senior AI Engineer", company := "TechCorp", location := "Dubai, UAE",
         salary_text := "", job_url := "https://www.linkedin.com/jobs/view/12345",
         full_description := "", source := "LinkedIn Email",
         apply_url := "https://www.linkedin.com/jobs/view/12345" },
       { title := "Senior AI Engineer at TechCorp", company := "Dubai, UAE", location := "",
         salary_text := "", job_url := "https://www.linkedin.com/jobs/view/12345",
         full_description := "", source := "Generic Email",
         apply_url := "https://www.linkedin.com/jobs/view/12345" }] := by
  decide

/-- **C5.** Apply-URL resolution in the LinkedIn and Indeed e-mail
parsers.  Every job extracted by `_parse_linkedin_job_alert` is
`liJobOfMatch body caps` for the match's captures `caps` (and likewise
for Indeed), so the claim is stated over arbitrary captures: when the
body contains no platform-specific apply-URL, the job's `apply_url`
equals its `job_url`; when it contains one — an apply-URL is never the
empty string, as every match starts with the literal
`https://.../apply/` resp. `/applystart/` prefix — the job's
`apply_url` is that URL if it differs from the job's own view URL, and
falls back to `job_url` when the two coincide. -/
theorem apply_url_resolution :
    (∀ (body : List Char) (caps : Rx.Caps),
      (Rx.reSearch liApplyPattern body = none →
        (liJobOfMatch body caps).apply_url = (liJobOfMatch body caps).job_url) ∧
      (∀ c', Rx.reSearch liApplyPattern body = some c' →
        pyStrip (Rx.getCap c' 1) ≠ "" →
        pyStrip (Rx.getCap c' 1) ≠ (liJobOfMatch body caps).job_url →
        (liJobOfMatch body caps).apply_url = pyStrip (Rx.getCap c' 1)) ∧
      (∀ c', Rx.reSearch liApplyPattern body = some c' →
        pyStrip (Rx.getCap c' 1) = (liJobOfMatch body caps).job_url →
        (liJobOfMatch body caps).apply_url = (liJobOfMatch body caps).job_url)) ∧
    (∀ (body : List Char) (caps : Rx.Caps),
      (Rx.reSearch inApplyPattern body = none →
        (inJobOfMatch body caps).apply_url = (inJobOfMatch body caps).job_url) ∧
      (∀ c', Rx.reSearch inApplyPattern body = some c' →
        pyStrip (Rx.getCap c' 1) ≠ "" →
        pyStrip (Rx.getCap c' 1) ≠ (inJobOfMatch body caps).job_url →
        (inJobOfMatch body caps).apply_url = pyStrip (Rx.getCap c' 1)) ∧
      (∀ c', Rx.reSearch inApplyPattern body = some c' →
        pyStrip (Rx.getCap c' 1) = (inJobOfMatch body caps).job_url →
        (inJobOfMatch body caps).apply_url = (inJobOfMatch body caps).job_url)) := by
  constructor
  · intro body caps
    refine ⟨?_, ?_, ?_⟩
    · intro h
      simp [liJobOfMatch, h]
    · intro c' h hne1 hne2
      rw [show (liJobOfMatch body caps).job_url = pyStrip (Rx.getCap caps 4) from rfl] at hne2
      simp [liJobOfMatch, h, hne1, hne2]
    · intro c' h he
      rw [show (liJobOfMatch body caps).job_url = pyStrip (Rx.getCap caps 4) from rfl] at he
      simp [liJobOfMatch, h, he]
  · intro body caps
    refine ⟨?_, ?_, ?_⟩
    · intro h
      simp [inJobOfMatch, h]
    · intro c' h hne1 hne2
      rw [show (inJobOfMatch body caps).job_url = pyStrip (Rx.getCap caps 4) from rfl] at hne2
      simp [inJobOfMatch, h, hne1, hne2]
    · intro c' h he
      rw [show (inJobOfMatch body caps).job_url = pyStrip (Rx.getCap caps 4) from rfl] at he
      simp [inJobOfMatch, h, he]

/-- Witness for **C5**: a body carrying a LinkedIn apply link distinct
from the match's view URL resolves `apply_url` to the apply link. -/
theorem apply_url_resolution_witness :
    (liJobOfMatch (String.data "apply at https://www.linkedin.com/jobs/apply/99")
        [(4, String.data "https://www.linkedin.com/jobs/view/1")]).apply_url =
      pyStrip (Rx.getCap [(0, String.data "https://www.linkedin.com/jobs/apply/99"),
        (1, String.data "https://www.linkedin.com/jobs/apply/99")] 1) :=
  (apply_url_resolution.1 _ _).2.1 _ (by decide) (by decide) (by decide)
